import Mathlib

/-!
Shallow embedding of the Medi-Reg-Master retrieval core
(src/core/error_recovery.py and src/core/retrieval_model.py).

Python floats are modelled by exact rationals, Python strings by Lean
strings, Python dict-shaped nodes by a structure carrying the two fields
the code reads (title, summary; absent keys default to the empty string).
The external judge callable is modelled as a function returning
Except Unit JudgeResult, where Except.error stands for a raised exception.
-/

namespace MediReg

/-- A word character in the sense of the regex class backslash w
(ASCII model: letters, digits, underscore). -/
def isWordChar (c : Char) : Bool := c.isAlphanum || c = '_'

/-- Accumulator-based scanner splitting a character list into maximal runs
of word characters, as re.findall of a word-token pattern does. -/
def tokenizeAux : List Char → List Char → List String
  | [], cur => if cur = [] then [] else [String.mk cur.reverse]
  | c :: cs, cur =>
    if isWordChar c then tokenizeAux cs (c :: cur)
    else if cur = [] then tokenizeAux cs cur
    else String.mk cur.reverse :: tokenizeAux cs []

/-- The word-boundary tokens of a string (re.findall word tokens). -/
def wordTokens (s : String) : List String := tokenizeAux s.toList []

/-- Bool test: is the list a contiguous sublist of the second argument.
Models Python substring membership on lists of characters. -/
def listContainsSub (needle : List Char) : List Char → Bool
  | [] => needle.isPrefixOf []
  | c :: cs => needle.isPrefixOf (c :: cs) || listContainsSub needle cs

/-- Python substring containment, needle in hay. -/
def containsSubstr (needle hay : String) : Bool :=
  listContainsSub needle.toList hay.toList

/-- Python str.lower, character-wise. -/
def pyLower (s : String) : String := String.mk (s.toList.map Char.toLower)

/-- Python str.strip: drop leading and trailing whitespace. -/
def pyStrip (s : String) : String :=
  String.mk (((s.toList.dropWhile Char.isWhitespace).reverse.dropWhile
    Char.isWhitespace).reverse)

/-- A tree node as the filtering code sees it: the two text fields read via
node.get with empty-string defaults. -/
structure Node where
  title : String
  summary : String
deriving DecidableEq

/-- FilteringDecision dataclass of error_recovery.py. -/
structure FilteringDecision where
  is_relevant : Bool
  confidence : ℚ
  reason : String
  llm_score : Option ℚ := none
  keyword_score : Option ℚ := none
  combined_score : Option ℚ := none
deriving DecidableEq

/-- The configuration state of ErrorRecoveryFilter (its constructor
arguments; the mutable history list is not needed by any claim). -/
structure ErrorRecoveryFilter where
  llm_weight : ℚ := 0.7
  keyword_weight : ℚ := 0.3
  confidence_threshold : ℚ := 0.6
  recovery_threshold : ℚ := 0.5

/-- An ErrorRecoveryFilter built with all defaults. -/
def defaultFilter : ErrorRecoveryFilter := {}

/-- The dict returned by an external judge call; both keys are read with
result.get and a default, so they are optional. -/
structure JudgeResult where
  relevant : Option Bool
  confidence : Option ℚ

/-- The type of the external judge callable llm_check_fn; Except.error
models a raised exception. -/
def Judge : Type := Node → String → String → Except Unit JudgeResult

/-- ErrorRecoveryFilter._llm_evaluate: call the judge, map its verdict to a
score of 0.9 or 0.1, and on any exception substitute (0.5, 0.3). -/
def llm_evaluate (llm_check_fn : Judge) (node : Node)
    (query parent_context : String) : ℚ × ℚ :=
  match llm_check_fn node query parent_context with
  | Except.error _ => (0.5, 0.3)
  | Except.ok result =>
    let is_relevant := result.relevant.getD false
    let confidence := result.confidence.getD 0.5
    let llm_score : ℚ := if is_relevant then 0.9 else 0.1
    (llm_score, confidence)

/-- ErrorRecoveryFilter._keyword_evaluate. -/
def keyword_evaluate (title summary query : String) : ℚ :=
  let query_lower := pyLower query
  let title_lower := (pyLower title)
  let summary_lower := (pyLower summary)
  let query_keywords :=
    (wordTokens query_lower).filter (fun kw => 2 < kw.length)
  if query_keywords = [] then 0.3
  else
    let title_matches :=
      (query_keywords.filter (fun kw => containsSubstr kw title_lower)).length
    let summary_matches :=
      (query_keywords.filter (fun kw => containsSubstr kw summary_lower)).length
    let title_score :=
      min ((title_matches : ℚ) / (query_keywords.length : ℚ)) 1.0
    let summary_score :=
      min ((summary_matches : ℚ) / (query_keywords.length : ℚ)) 1.0
    title_score * 0.4 + summary_score * 0.6

/-- ErrorRecoveryFilter._generate_reason. -/
def generate_reason (llm_score keyword_score combined_score : ℚ) : String :=
  if combined_score > 0.7 then
    if llm_score > keyword_score then "Strong LLM match"
    else "Strong keyword match"
  else if combined_score > 0.5 then "Moderate match from multiple signals"
  else if llm_score > 0.5 then
    "LLM suggests relevance but weak keyword signals"
  else "Minimal relevance signals"

/-- Lines 74-109 of dual_stage_filter: combine a given external signal
(score, confidence) with the keyword signal into the returned decision. -/
def decide_with_signal (f : ErrorRecoveryFilter) (node : Node)
    (query : String) (sig : ℚ × ℚ) : FilteringDecision :=
  let llm_score := sig.1
  let llm_confidence := sig.2
  let keyword_score := keyword_evaluate node.title node.summary query
  let keyword_confidence : ℚ := if keyword_score > 0.5 then 1.0 else 0.3
  let combined_score :=
    f.llm_weight * llm_score + f.keyword_weight * keyword_score
  let confidence :=
    f.llm_weight * llm_confidence + f.keyword_weight * keyword_confidence
  let is_relevant := decide (combined_score > 0.5)
  { is_relevant := is_relevant
    confidence := confidence
    reason := generate_reason llm_score keyword_score combined_score
    llm_score := some llm_score
    keyword_score := some keyword_score
    combined_score := some combined_score }

/-- ErrorRecoveryFilter.dual_stage_filter: depth-0 fast path, sparse-content
guard, then the combination of the external signal with the keyword
signal. -/
def dual_stage_filter (f : ErrorRecoveryFilter) (node : Node)
    (query parent_context : String) (depth : Nat)
    (llm_check_fn : Option Judge) : FilteringDecision :=
  if depth = 0 then
    { is_relevant := true
      confidence := 1.0
      reason := "Root node always relevant" }
  else
    let title := node.title
    let summary := node.summary
    if summary.length < 20 ∧ title.length < 10 then
      { is_relevant := false
        confidence := 0.95
        reason := "Content too sparse to evaluate" }
    else
      let sig :=
        match llm_check_fn with
        | some fn => llm_evaluate fn node query parent_context
        | none => (0.5, 0.0)
      decide_with_signal f node query sig

/-- dual_stage_filter with the external signal fixed to a given pair:
the runs the spec describes when the judge fails or is absent. -/
def dual_stage_filter_with_sig (f : ErrorRecoveryFilter) (node : Node)
    (query : String) (depth : Nat) (sig : ℚ × ℚ) : FilteringDecision :=
  if depth = 0 then
    { is_relevant := true
      confidence := 1.0
      reason := "Root node always relevant" }
  else if node.summary.length < 20 ∧ node.title.length < 10 then
    { is_relevant := false
      confidence := 0.95
      reason := "Content too sparse to evaluate" }
  else
    decide_with_signal f node query sig

/-- ErrorRecoveryFilter._recover_critical_nodes, inner loop: walk the
filtered nodes in order, keeping those whose lowercased title contains
enough critical keywords. -/
def recover_critical_aux (critical_keywords : List String) :
    List Node → List Node
  | [] => []
  | node :: rest =>
    let title := pyLower node.title
    let matchCount :=
      (critical_keywords.filter (fun kw => containsSubstr kw title)).length
    if 2 ≤ matchCount ∨ (1 ≤ matchCount ∧ 20 < title.length) then
      node :: recover_critical_aux critical_keywords rest
    else
      recover_critical_aux critical_keywords rest

/-- ErrorRecoveryFilter._recover_critical_nodes: keep qualifying filtered
nodes and return at most the first 3. -/
def recover_critical_nodes (filtered_nodes : List Node) (query : String) :
    List Node :=
  let query_lower := pyLower query
  let critical_keywords :=
    (wordTokens query_lower).filter (fun kw => 4 ≤ kw.length)
  (recover_critical_aux critical_keywords filtered_nodes).take 3

/-- ErrorRecoveryFilter.detect_over_filtering. -/
def detect_over_filtering (selected_nodes filtered_nodes : List Node)
    (query : String) : Bool × List Node :=
  if selected_nodes.length = 0 ∧ 0 < filtered_nodes.length then
    (true, recover_critical_nodes filtered_nodes query)
  else if selected_nodes.length < 2 ∧
      selected_nodes.length * 2 < filtered_nodes.length then
    (true, recover_critical_nodes filtered_nodes query)
  else
    (false, [])

/-- ErrorRecoveryFilter.adaptive_threshold_adjustment. -/
def adaptive_threshold_adjustment (f : ErrorRecoveryFilter)
    (num_selected num_total query_length : Nat) : ℚ :=
  let base_threshold := f.confidence_threshold
  let filter_rate : ℚ :=
    if 0 < num_total then 1.0 - ((num_selected : ℚ) / (num_total : ℚ))
    else 0.0
  if filter_rate > 0.9 then base_threshold - 0.15
  else if filter_rate > 0.7 then base_threshold - 0.1
  else if filter_rate < 0.3 then base_threshold + 0.1
  else if query_length < 10 then base_threshold + 0.1
  else if query_length > 100 then base_threshold - 0.05
  else base_threshold

/-- RelevanceWeights dataclass of retrieval_model.py (fields only). -/
structure RelevanceWeights where
  semantic_weight : ℚ := 0.7
  structural_weight : ℚ := 0.2
  contextual_weight : ℚ := 0.1
deriving DecidableEq

/-- Construction of RelevanceWeights including the post-init validation:
Except.error models the raised ValueError. -/
def mkRelevanceWeights (semantic_weight structural_weight
    contextual_weight : ℚ) : Except String RelevanceWeights :=
  let total := semantic_weight + structural_weight + contextual_weight
  if |total - 1.0| > 1e-6 then
    Except.error "Weights must sum to 1.0"
  else
    Except.ok
      { semantic_weight := semantic_weight
        structural_weight := structural_weight
        contextual_weight := contextual_weight }

/-- The configuration state of HierarchicalRetrievalModel. -/
structure HierarchicalRetrievalModel where
  weights : RelevanceWeights := {}
  max_depth : Nat := 5
  depth_decay : ℚ := 0.9

/-- np.clip(x, 0.0, 1.0). -/
def clip01 (x : ℚ) : ℚ := max 0 (min x 1)

/-- HierarchicalRetrievalModel._semantic_relevance (keyword-overlap path:
the embedding-based variant is unreachable without the network client). -/
def semantic_relevance (node : Node) (query : String) : ℚ :=
  let node_title := node.title
  let node_summary := node.summary
  let node_text := pyStrip (node_title ++ ". " ++ node_summary)
  if node_text = "" then 0.0
  else
    let query_lower := pyLower query
    let node_lower := (pyLower node_text)
    let query_words := (wordTokens query_lower).dedup
    let node_words := (wordTokens node_lower).dedup
    if query_words = [] then 0.0
    else
      let overlap :=
        (query_words.filter (fun w => node_words.contains w)).length
      let similarity : ℚ := (overlap : ℚ) / (query_words.length : ℚ)
      let title_lower := pyLower node_title
      let similarity2 :=
        if query_words.any (fun w => containsSubstr w title_lower) then
          min (similarity + 0.2) 1.0
        else similarity
      min similarity2 1.0

/-- The semantic component exactly as claim C6 words it, including the
filter keeping only query terms of length greater than 2; written from the
claim, to be compared against semantic_relevance from the source. -/
def semantic_relevance_claimed (node : Node) (query : String) : ℚ :=
  let query_terms :=
    ((wordTokens (pyLower query)).filter (fun w => 2 < w.length)).dedup
  let node_terms :=
    (wordTokens (pyLower (pyStrip (node.title ++ ". " ++ node.summary)))).dedup
  if query_terms = [] then 0.0
  else
    let overlap :=
      (query_terms.filter (fun w => node_terms.contains w)).length
    let ratio : ℚ := (overlap : ℚ) / (query_terms.length : ℚ)
    if query_terms.any (fun w => containsSubstr w (pyLower node.title)) then
      min (ratio + 0.2) 1.0
    else ratio

/-- The semantic component as the amended claim words it: the overlap ratio
with query terms of every length, zero when the query has no tokens, and
the capped title bonus. -/
def semantic_relevance_formula (node : Node) (query : String) : ℚ :=
  let query_terms := (wordTokens (pyLower query)).dedup
  let node_terms :=
    (wordTokens (pyLower (pyStrip (node.title ++ ". " ++ node.summary)))).dedup
  if query_terms = [] then 0.0
  else
    let overlap :=
      (query_terms.filter (fun w => node_terms.contains w)).length
    let ratio : ℚ := (overlap : ℚ) / (query_terms.length : ℚ)
    if query_terms.any (fun w => containsSubstr w (pyLower node.title)) then
      min (ratio + 0.2) 1.0
    else ratio

/-- HierarchicalRetrievalModel._structural_relevance. -/
def structural_relevance (m : HierarchicalRetrievalModel)
    (current_depth : Nat) : ℚ :=
  if current_depth ≥ m.max_depth then 0.0
  else clip01 (m.depth_decay ^ current_depth)

/-!
The arithmetic operations on ℚ are irreducible by default; the proofs of
the concrete witnesses below evaluate them, so reducibility is restored
locally for this development.
-/

attribute [local semireducible] Rat.ofScientific Rat.add Rat.mul Rat.inv
  Rat.sub

/-- C1: for every filter configuration, node, query, parent context and
judge, dual_stage_filter at depth 0 returns a decision with
is_relevant = true and confidence = 1.0. -/
theorem C1_root_always_relevant (f : ErrorRecoveryFilter) (node : Node)
    (query parent_context : String) (fn : Option Judge) :
    (dual_stage_filter f node query parent_context 0 fn).is_relevant
      = true ∧
    (dual_stage_filter f node query parent_context 0 fn).confidence
      = 1.0 :=
  ⟨rfl, rfl⟩

/-- C5: at depth at least 1, a node whose summary is shorter than 20
characters and whose title is shorter than 10 characters is rejected with
confidence 0.95, the decision carries no score fields, and it does not
depend on the external judge, which is therefore never invoked. -/
theorem C5_sparse_content_guard (f : ErrorRecoveryFilter) (node : Node)
    (query parent_context : String) (depth : Nat) (fn : Option Judge)
    (hd : 1 ≤ depth) (hs : node.summary.length < 20)
    (ht : node.title.length < 10) :
    dual_stage_filter f node query parent_context depth fn =
      { is_relevant := false
        confidence := 0.95
        reason := "Content too sparse to evaluate"
        llm_score := none
        keyword_score := none
        combined_score := none } ∧
    ∀ fn2 : Option Judge,
      dual_stage_filter f node query parent_context depth fn =
        dual_stage_filter f node query parent_context depth fn2 := by
  have hdz : depth ≠ 0 := by omega
  constructor
  · simp [dual_stage_filter, hdz, hs, ht]
  · intro fn2
    simp [dual_stage_filter, hdz, hs, ht]

/-- Witness for C5 at a concrete sparse node and depth 1. -/
theorem C5_sparse_content_guard_witness :
    dual_stage_filter defaultFilter ⟨"t", "s"⟩ "q" "" 1 none =
      { is_relevant := false
        confidence := 0.95
        reason := "Content too sparse to evaluate"
        llm_score := none
        keyword_score := none
        combined_score := none } :=
  (C5_sparse_content_guard defaultFilter ⟨"t", "s"⟩ "q" "" 1 none
    (by decide) (by decide) (by decide)).1

/-- C2: at depth at least 1, when the external judge raises, the judgment
is substituted by score 0.5 at confidence 0.3 and the filter still returns
the decision of the run with that fixed signal; when no judge is supplied
the run uses the signal score 0.5 at confidence 0.0. -/
theorem C2_judge_failure_recovered (f : ErrorRecoveryFilter) (node : Node)
    (query parent_context : String) (depth : Nat) (fn : Judge)
    (hd : 1 ≤ depth) :
    (fn node query parent_context = Except.error () →
      llm_evaluate fn node query parent_context = (0.5, 0.3) ∧
      dual_stage_filter f node query parent_context depth (some fn) =
        dual_stage_filter_with_sig f node query depth (0.5, 0.3)) ∧
    dual_stage_filter f node query parent_context depth none =
      dual_stage_filter_with_sig f node query depth (0.5, 0.0) := by
  have hdz : depth ≠ 0 := by omega
  constructor
  · intro herr
    have h1 : llm_evaluate fn node query parent_context = (0.5, 0.3) := by
      simp [llm_evaluate, herr]
    refine ⟨h1, ?_⟩
    simp [dual_stage_filter, dual_stage_filter_with_sig, hdz, h1]
  · simp [dual_stage_filter, dual_stage_filter_with_sig, hdz]

/-- Witness for C2 at a concrete node, depth 1, and a judge that always
raises. -/
theorem C2_judge_failure_recovered_witness :
    (llm_evaluate (fun _ _ _ => Except.error ())
        ⟨"Alpha", "Beta gamma delta epsilon zeta"⟩ "query" "ctx"
      = (0.5, 0.3) ∧
    dual_stage_filter defaultFilter
        ⟨"Alpha", "Beta gamma delta epsilon zeta"⟩ "query" "ctx" 1
        (some (fun _ _ _ => Except.error ())) =
      dual_stage_filter_with_sig defaultFilter
        ⟨"Alpha", "Beta gamma delta epsilon zeta"⟩ "query" 1 (0.5, 0.3)) ∧
    dual_stage_filter defaultFilter
        ⟨"Alpha", "Beta gamma delta epsilon zeta"⟩ "query" "ctx" 1 none =
      dual_stage_filter_with_sig defaultFilter
        ⟨"Alpha", "Beta gamma delta epsilon zeta"⟩ "query" 1 (0.5, 0.0) := by
  have h := C2_judge_failure_recovered defaultFilter
    ⟨"Alpha", "Beta gamma delta epsilon zeta"⟩ "query" "ctx" 1
    (fun _ _ _ => Except.error ()) (by decide)
  exact ⟨h.1 rfl, h.2⟩

/-- C10: with the default weights and no external judge, at depth at least
1 past the sparse guard, the decision reduces to the keyword signal:
combined score 0.35 + 0.3 times the keyword score, relevance exactly when
the keyword score exceeds 0.5, and confidence at most 0.3. -/
theorem C10_no_judge_keyword_only (node : Node)
    (query parent_context : String) (depth : Nat) (hd : 1 ≤ depth)
    (hguard : ¬(node.summary.length < 20 ∧ node.title.length < 10)) :
    (dual_stage_filter defaultFilter node query parent_context depth
        none).combined_score =
      some (0.35 + 0.3 * keyword_evaluate node.title node.summary query) ∧
    ((dual_stage_filter defaultFilter node query parent_context depth
        none).is_relevant = true ↔
      keyword_evaluate node.title node.summary query > 0.5) ∧
    (dual_stage_filter defaultFilter node query parent_context depth
        none).confidence ≤ 0.3 := by
  have hdz : depth ≠ 0 := by omega
  have hred : dual_stage_filter defaultFilter node query parent_context
      depth none = decide_with_signal defaultFilter node query (0.5, 0.0) := by
    simp [dual_stage_filter, hdz, hguard]
  rw [hred]
  set k := keyword_evaluate node.title node.summary query with hk
  have hw : defaultFilter = ⟨0.7, 0.3, 0.6, 0.5⟩ := rfl
  refine ⟨?_, ?_, ?_⟩
  · simp only [decide_with_signal, hw, Option.some.injEq, ← hk]
    norm_num
  · simp only [decide_with_signal, hw, ← hk, decide_eq_true_eq]
    constructor <;> intro h <;> nlinarith
  · simp only [decide_with_signal, hw, ← hk]
    split_ifs <;> norm_num

/-- Witness for C10 at a concrete non-sparse node and depth 1. -/
theorem C10_no_judge_keyword_only_witness :
    (dual_stage_filter defaultFilter
        ⟨"Alpha", "Beta gamma delta epsilon zeta"⟩ "query" "ctx" 1
        none).combined_score =
      some (0.35 + 0.3 *
        keyword_evaluate "Alpha" "Beta gamma delta epsilon zeta" "query") ∧
    ((dual_stage_filter defaultFilter
        ⟨"Alpha", "Beta gamma delta epsilon zeta"⟩ "query" "ctx" 1
        none).is_relevant = true ↔
      keyword_evaluate "Alpha" "Beta gamma delta epsilon zeta" "query"
        > 0.5) ∧
    (dual_stage_filter defaultFilter
        ⟨"Alpha", "Beta gamma delta epsilon zeta"⟩ "query" "ctx" 1
        none).confidence ≤ 0.3 :=
  C10_no_judge_keyword_only ⟨"Alpha", "Beta gamma delta epsilon zeta"⟩
    "query" "ctx" 1 (by decide) (by decide)

/-- C3: detect_over_filtering triggers exactly when the selected list is
empty and the filtered list non-empty, or the selected list has fewer than
2 members and the filtered list more than twice as many; otherwise it
returns (false, []). -/
theorem C3_over_filtering_trigger (selected filtered : List Node)
    (query : String) :
    ((detect_over_filtering selected filtered query).1 = true ↔
      (selected.length = 0 ∧ 0 < filtered.length) ∨
      (selected.length < 2 ∧
        2 * selected.length < filtered.length)) ∧
    (¬((selected.length = 0 ∧ 0 < filtered.length) ∨
        (selected.length < 2 ∧
          2 * selected.length < filtered.length)) →
      detect_over_filtering selected filtered query = (false, [])) := by
  unfold detect_over_filtering
  constructor
  · split_ifs with h1 h2
    · exact ⟨fun _ => Or.inl h1, fun _ => rfl⟩
    · exact ⟨fun _ => Or.inr ⟨h2.1, by omega⟩, fun _ => rfl⟩
    · constructor
      · intro hc
        exact absurd hc (by simp)
      · intro hor
        rcases hor with ha | hb
        · exact absurd ha h1
        · exact absurd ⟨hb.1, by omega⟩ h2
  · intro hn
    split_ifs with h1 h2
    · exact absurd (Or.inl h1) hn
    · refine absurd (Or.inr ⟨h2.1, ?_⟩) hn
      omega
    · rfl

/-- Witness for C3 at concrete lists where neither condition holds. -/
theorem C3_over_filtering_trigger_witness :
    detect_over_filtering [⟨"a", "b"⟩, ⟨"c", "d"⟩] [] "q" = (false, []) :=
  (C3_over_filtering_trigger [⟨"a", "b"⟩, ⟨"c", "d"⟩] [] "q").2 (by decide)

/-- The accumulator loop of the recovery pass keeps exactly the qualifying
nodes, in order. -/
theorem recover_critical_aux_eq_filter (kws : List String) (l : List Node) :
    recover_critical_aux kws l =
      l.filter (fun node =>
        let title := pyLower node.title
        let m := (kws.filter (fun kw => containsSubstr kw title)).length
        decide (2 ≤ m ∨ (1 ≤ m ∧ 20 < title.length))) := by
  induction l with
  | nil => rfl
  | cons x xs ih =>
    simp only [recover_critical_aux, List.filter_cons]
    by_cases h : 2 ≤ ((kws.filter
        (fun kw => containsSubstr kw (pyLower x.title))).length) ∨
        (1 ≤ ((kws.filter
          (fun kw => containsSubstr kw (pyLower x.title))).length) ∧
          20 < (pyLower x.title).length)
    · simp [h, ih]
    · simp [h, ih]

/-- C4: the recovery pass returns exactly the filtered nodes whose
lowercased title contains at least 2 critical query keywords (word tokens
of length at least 4), or at least 1 such keyword when the title is longer
than 20 characters, keeping the original order and never more than 3
nodes. -/
theorem C4_recovery_rule (filtered : List Node) (query : String) :
    recover_critical_nodes filtered query =
      (filtered.filter (fun node =>
        let title := pyLower node.title
        let m := (((wordTokens (pyLower query)).filter
          (fun kw => 4 ≤ kw.length)).filter
            (fun kw => containsSubstr kw title)).length
        decide (2 ≤ m ∨ (1 ≤ m ∧ 20 < title.length)))).take 3 ∧
    (recover_critical_nodes filtered query).length ≤ 3 ∧
    (recover_critical_nodes filtered query).Sublist filtered := by
  have heq := recover_critical_aux_eq_filter
    ((wordTokens (pyLower query)).filter (fun kw => 4 ≤ kw.length)) filtered
  refine ⟨?_, ?_, ?_⟩
  · simp only [recover_critical_nodes, heq]
  · simp only [recover_critical_nodes]
    exact List.length_take_le 3 _
  · simp only [recover_critical_nodes, heq]
    exact ((List.take_sublist 3 _).trans (List.filter_sublist _))

/-- C7: the adaptive threshold applies the first matching rule in priority
order on filter_rate = 1 - selected / total (0 when total is 0): above 0.9
the base drops by 0.15, above 0.7 it drops by 0.1, below 0.3 it rises by
0.1; in the mid range a query of fewer than 10 tokens raises it by 0.1, a
query of more than 100 lowers it by 0.05, and otherwise it is unchanged;
in particular a 5-token query yields a strictly higher threshold than a
150-token one. -/
theorem C7_adaptive_threshold_rules (f : ErrorRecoveryFilter)
    (num_selected num_total query_length : Nat) (fr : ℚ)
    (hfr : fr = if 0 < num_total then
      1.0 - ((num_selected : ℚ) / (num_total : ℚ)) else 0.0) :
    let base := f.confidence_threshold
    (fr > 0.9 →
      adaptive_threshold_adjustment f num_selected num_total query_length
        = base - 0.15) ∧
    (fr ≤ 0.9 → fr > 0.7 →
      adaptive_threshold_adjustment f num_selected num_total query_length
        = base - 0.1) ∧
    (fr < 0.3 →
      adaptive_threshold_adjustment f num_selected num_total query_length
        = base + 0.1) ∧
    (0.3 ≤ fr → fr ≤ 0.7 → query_length < 10 →
      adaptive_threshold_adjustment f num_selected num_total query_length
        = base + 0.1) ∧
    (0.3 ≤ fr → fr ≤ 0.7 → 100 < query_length →
      adaptive_threshold_adjustment f num_selected num_total query_length
        = base - 0.05) ∧
    (0.3 ≤ fr → fr ≤ 0.7 → 10 ≤ query_length → query_length ≤ 100 →
      adaptive_threshold_adjustment f num_selected num_total query_length
        = base) ∧
    (0.3 ≤ fr → fr ≤ 0.7 →
      adaptive_threshold_adjustment f num_selected num_total 150 <
        adaptive_threshold_adjustment f num_selected num_total 5) := by
  intro base
  have hval : ∀ q : Nat,
      adaptive_threshold_adjustment f num_selected num_total q =
        if fr > 0.9 then base - 0.15
        else if fr > 0.7 then base - 0.1
        else if fr < 0.3 then base + 0.1
        else if q < 10 then base + 0.1
        else if q > 100 then base - 0.05
        else base := by
    intro q
    simp only [adaptive_threshold_adjustment]
    rw [← hfr]
  refine ⟨?_, ?_, ?_, ?_, ?_, ?_, ?_⟩ <;>
    · intros
      simp only [hval]
      split_ifs <;> first | rfl | linarith

/-- Witness for C7 at 5 of 10 nodes selected (filter rate one half). -/
theorem C7_adaptive_threshold_rules_witness :
    adaptive_threshold_adjustment defaultFilter 5 10 5
      = defaultFilter.confidence_threshold + 0.1 ∧
    adaptive_threshold_adjustment defaultFilter 5 10 150 <
      adaptive_threshold_adjustment defaultFilter 5 10 5 := by
  have h5 := C7_adaptive_threshold_rules defaultFilter 5 10 5 0.5 (by decide)
  exact ⟨h5.2.2.2.1 (by decide) (by decide) (by decide),
    h5.2.2.2.2.2.2 (by decide) (by decide)⟩

/-- C8: when the depth decay lies strictly between 0 and 1, the structural
relevance component is strictly decreasing on depths below max_depth and
equals 0 at every depth at or beyond max_depth. -/
theorem C8_structural_decay (m : HierarchicalRetrievalModel)
    (h0 : 0 < m.depth_decay) (h1 : m.depth_decay < 1) :
    (∀ d : Nat, d < m.max_depth →
      structural_relevance m d = m.depth_decay ^ d) ∧
    (∀ d1 d2 : Nat, d1 < d2 → d2 < m.max_depth →
      structural_relevance m d2 < structural_relevance m d1) ∧
    (∀ d : Nat, m.max_depth ≤ d → structural_relevance m d = 0) := by
  have hval : ∀ d : Nat, d < m.max_depth →
      structural_relevance m d = m.depth_decay ^ d := by
    intro d hd
    unfold structural_relevance clip01
    rw [if_neg (by omega)]
    have hle : m.depth_decay ^ d ≤ 1 := pow_le_one₀ h0.le h1.le
    have hge : (0 : ℚ) ≤ m.depth_decay ^ d := pow_nonneg h0.le d
    rw [min_eq_left hle, max_eq_right hge]
  refine ⟨hval, ?_, ?_⟩
  · intro d1 d2 hlt hmax
    rw [hval d2 hmax, hval d1 (by omega)]
    exact pow_lt_pow_right_of_lt_one₀ h0 h1 hlt
  · intro d hd
    unfold structural_relevance
    rw [if_pos hd]
    norm_num

/-- Witness for C8 at the default model (decay 0.9, max_depth 5). -/
theorem C8_structural_decay_witness :
    structural_relevance {} 2 = (0.9 : ℚ) ^ 2 ∧
    structural_relevance {} 2 < structural_relevance {} 1 ∧
    structural_relevance {} 7 = 0 := by
  have h := C8_structural_decay {} (by decide) (by decide)
  exact ⟨h.1 2 (by decide), h.2.1 1 2 (by decide) (by decide),
    h.2.2 7 (by decide)⟩

/-- C9: building RelevanceWeights succeeds exactly when the three weights
sum to 1 within tolerance 1e-6; the weights (0.5, 0.3, 0.3) are rejected
while (0.7, 0.2, 0.1) are accepted. -/
theorem C9_weight_sum_validation :
    (∀ s st c : ℚ,
      (mkRelevanceWeights s st c).isOk = true ↔
        |s + st + c - 1.0| ≤ 1e-6) ∧
    (mkRelevanceWeights 0.5 0.3 0.3).isOk = false ∧
    (mkRelevanceWeights 0.7 0.2 0.1).isOk = true := by
  refine ⟨fun s st c => ?_, by decide, by decide⟩
  simp only [mkRelevanceWeights]
  split_ifs with h
  · constructor
    · intro hc
      exact absurd hc (by decide)
    · intro hle
      exact absurd h (not_lt.mpr hle)
  · constructor
    · intro _
      exact not_lt.mp h
    · intro _
      rfl

/-- An element not satisfying the predicate survives dropWhile. -/
theorem mem_dropWhile_of_neg (p : Char → Bool) {c : Char}
    (hc : p c = false) {l : List Char} (hmem : c ∈ l) :
    c ∈ l.dropWhile p := by
  have hsplit : l.takeWhile p ++ l.dropWhile p = l :=
    List.takeWhile_append_dropWhile p l
  rw [← hsplit] at hmem
  rcases List.mem_append.mp hmem with h | h
  · have := List.mem_takeWhile_imp h
    rw [hc] at this
    exact absurd this (by simp)
  · exact h

/-- A string containing a non-whitespace character does not strip to the
empty string. -/
theorem pyStrip_ne_empty {s : String} {c : Char}
    (hc : c.isWhitespace = false) (hmem : c ∈ s.toList) :
    pyStrip s ≠ "" := by
  intro he
  have hdata : (((s.toList.dropWhile Char.isWhitespace).reverse.dropWhile
      Char.isWhitespace).reverse) = ([] : List Char) :=
    congrArg String.data he
  have h1 : c ∈ s.toList.dropWhile Char.isWhitespace :=
    mem_dropWhile_of_neg _ hc hmem
  have h2 : c ∈ (s.toList.dropWhile Char.isWhitespace).reverse :=
    List.mem_reverse.mpr h1
  have h3 : c ∈ (s.toList.dropWhile Char.isWhitespace).reverse.dropWhile
      Char.isWhitespace :=
    mem_dropWhile_of_neg _ hc h2
  have h4 : c ∈ ((s.toList.dropWhile Char.isWhitespace).reverse.dropWhile
      Char.isWhitespace).reverse :=
    List.mem_reverse.mpr h3
  rw [hdata] at h4
  exact absurd h4 (List.not_mem_nil c)

/-- The node text assembled by _semantic_relevance always contains the
period separator. -/
theorem dot_mem_node_text (node : Node) :
    ('.' : Char) ∈ (node.title ++ ". " ++ node.summary).toList := by
  show ('.' : Char) ∈ (node.title ++ ". " ++ node.summary).data
  rw [String.data_append, String.data_append]
  refine List.mem_append.mpr (Or.inl (List.mem_append.mpr (Or.inr ?_)))
  show ('.' : Char) ∈ ". ".data
  decide

/-- C6 counterexample: at the node with title "ab" and empty summary and
the query "ab", the code computes semantic relevance 1 while the formula
of the claim, whose query terms keep only tokens of length greater
than 2, computes 0. -/
theorem C6_counterexample :
    semantic_relevance ⟨"ab", ""⟩ "ab" = 1 ∧
    semantic_relevance_claimed ⟨"ab", ""⟩ "ab" = 0 ∧
    semantic_relevance_claimed ⟨"ab", ""⟩ "ab" ≠
      semantic_relevance ⟨"ab", ""⟩ "ab" := by
  refine ⟨by decide, by decide, by decide⟩

/-- C6 amended: the semantic component equals the overlap ratio between
the case-folded query tokens of every length (not only those longer
than 2 characters) and the node tokens, zero when the query has no
tokens, with the +0.2 title bonus capped at 1.0. -/
theorem C6_semantic_overlap_amended (node : Node) (query : String) :
    semantic_relevance node query = semantic_relevance_formula node query := by
  have hne : pyStrip (node.title ++ ". " ++ node.summary) ≠ "" :=
    pyStrip_ne_empty (by decide) (dot_mem_node_text node)
  simp only [semantic_relevance, semantic_relevance_formula]
  rw [if_neg hne]
  by_cases hq : (wordTokens (pyLower query)).dedup = []
  · rw [if_pos hq, if_pos hq]
  · rw [if_neg hq, if_neg hq]
    have hlen : 0 < (wordTokens (pyLower query)).dedup.length :=
      List.length_pos.mpr hq
    have hsim : ((((wordTokens (pyLower query)).dedup.filter (fun w =>
        ((wordTokens (pyLower (pyStrip (node.title ++ ". " ++
          node.summary)))).dedup).contains w)).length : ℚ) /
          (((wordTokens (pyLower query)).dedup.length : ℚ))) ≤ 1 := by
      rw [div_le_one (by exact_mod_cast hlen)]
      exact_mod_cast List.length_filter_le _ _
    by_cases hb : ((wordTokens (pyLower query)).dedup.any
        (fun w => containsSubstr w (pyLower node.title))) = true
    · rw [if_pos hb]
      exact min_eq_left (min_le_right _ _)
    · rw [if_neg hb]
      exact min_eq_left hsim

end MediReg
